import Mathlib

/-!
# GPCS4 graphics core: queue virtualisation of the Gnm driver and the GPU event pool

A shallow embedding of

* `src/GPCS4/Graphics/Sce/SceGnmDriver.{h,cpp}`: `mapComputeQueue`,
  `unmapComputeQueue`, `submitCommandBuffers`, `submitAndFlipCommandBuffers`,
  `submitPresent`, `trackRenderTarget`, `resetResourceTracker`;
* `src/GPCS4/Graphics/Violet/VltGpuEvent.cpp`: `VltGpuEvent::test`,
  `VltGpuEventPool::allocEvent`, `VltGpuEventPool::freeEvent`;
* `src/GPCS4/Graphics/Sce/SceResource.h`: the members and the accessors of
  `SceResource`.

Conventions of the embedding.

* `uint32_t` values are natural numbers, reduced modulo `2 ^ 32` wherever the
  source computes with them; the `int` local of `mapComputeQueue` is an
  integer obtained with `toInt32`, and is turned back with `toUInt32` where
  the source converts it (comparison with an unsigned constant, subtraction of
  an unsigned constant, the `uint32_t` return value).
* Pointers are natural numbers (addresses), `0` being `nullptr` and
  `VK_NULL_HANDLE`.  Guest memory is a total map from the address of a 32-bit
  word to its value: the addresses handed to the driver are taken to be
  mapped and writable.
* Indexing `std::array` is checked: an index past the end is a `Fault`.
* The collaborators whose code is outside these sources (the queue object,
  the swapchain, the resource tracker, the Vulkan host) are observed through
  the list of calls made on them, oldest call first.
* The driver is modelled during its lifetime, after `createSwapchain`: the
  graphics queue and the swapchain exist.
-/

namespace sce

set_option linter.unusedVariables false

/-! ## Machine integers -/

/-- Reduction of a natural number to a `uint32_t`. -/
def u32 (x : Nat) : Nat := x % 2 ^ 32

/-- The C++ `int` whose 32-bit two's complement pattern is `x`. -/
def toInt32 (x : Nat) : Int :=
  if x % 2 ^ 32 < 2 ^ 31 then ((x % 2 ^ 32 : Nat) : Int)
  else ((x % 2 ^ 32 : Nat) : Int) - 2 ^ 32

/-- Conversion of an `int` to `uint32_t`. -/
def toUInt32 (i : Int) : Nat := (i % 2 ^ 32).toNat

/-! ## Constants of `SceGnmDriver.h` -/

/-- Valid vqueue id should be positive value. -/
def VQueueIdBegin : Nat := 1

/-- Upper bound of the pipe id. -/
def MaxPipeId : Nat := 7

/-- Upper bound of the queue id. -/
def MaxQueueId : Nat := 8

/-- Size of the compute-queue table. -/
def MaxComputeQueueCount : Nat := MaxPipeId * MaxQueueId

/-! ## Error codes and helpers that live outside the sources -/

/-- Modelled from the spec: `SCE_OK` of `sce_errors.h`, which is not among the
sources; the spec calls it the `OK` status, as opposed to the negative error
codes. -/
def SCE_OK : Int := 0

/-- Modelled from the spec: the "invalid pipe id" code of `sce_errors.h`, which
is not among the sources; the spec fixes that the five codes are distinct and
negative; nothing proved here uses more of the value chosen. -/
def SCE_GNM_ERROR_COMPUTEQUEUE_INVALID_PIPE_ID : Int := 0x80D17000 - 2 ^ 32

/-- Modelled from the spec: the "invalid queue id" code of `sce_errors.h`, which
is not among the sources; the spec fixes that the five codes are distinct and
negative; nothing proved here uses more of the value chosen. -/
def SCE_GNM_ERROR_COMPUTEQUEUE_INVALID_QUEUE_ID : Int := 0x80D17001 - 2 ^ 32

/-- Modelled from the spec: the "invalid ring size" code of `sce_errors.h`, which
is not among the sources; the spec fixes that the five codes are distinct and
negative; nothing proved here uses more of the value chosen. -/
def SCE_GNM_ERROR_COMPUTEQUEUE_INVALID_RING_SIZE : Int := 0x80D17003 - 2 ^ 32

/-- Modelled from the spec: the "invalid ring base alignment" code of
`sce_errors.h`, which is not among the sources; the spec fixes that the five
codes are distinct and negative; nothing proved here uses more of the value chosen. -/
def SCE_GNM_ERROR_COMPUTEQUEUE_INVALID_RING_BASE_ADDR : Int := 0x80D17004 - 2 ^ 32

/-- Modelled from the spec: the "invalid read-pointer alignment" code of
`sce_errors.h`, which is not among the sources; the spec fixes that the five
codes are distinct and negative; nothing proved here uses more of the value chosen. -/
def SCE_GNM_ERROR_COMPUTEQUEUE_INVALID_READ_PTR_ADDR : Int := 0x80D17005 - 2 ^ 32

/-- Modelled from the spec: `util::isPowerOfTwo` of `UtilMath.h`, which is not
among the sources; the spec says that the ring size "must be a power of two".
For a `uint32_t` these are `2 ^ 0`, ..., `2 ^ 31`. -/
def isPowerOfTwo (x : Nat) : Bool := (List.range 32).any (fun k => x == 2 ^ k)

/-! ## Constants of the Vulkan headers -/

/-- `VK_NULL_HANDLE`. -/
def VK_NULL_HANDLE : Nat := 0

/-- `VK_SUCCESS` of the Vulkan headers. -/
def VK_SUCCESS : Int := 0

/-- `VK_EVENT_SET` of the Vulkan headers. -/
def VK_EVENT_SET : Int := 3

/-- `VK_EVENT_RESET` of the Vulkan headers. -/
def VK_EVENT_RESET : Int := 4

/-! ## Outcome of a call -/

/-- The ways a call can leave the defined behaviour of the program. -/
inductive Fault where
  /-- A `LOG_ASSERT` whose condition is false. -/
  | assertion (message : String)
  /-- An element access past the end of a `std::array`. -/
  | indexOutOfRange (index : Nat)
deriving DecidableEq, Repr

/-- A call either returns a value, or stops at a fault; in both cases with the
state reached at that point. -/
inductive Result (σ α : Type) where
  | ok (ret : α) (state : σ)
  | fault (f : Fault) (state : σ)

/-! ## Data model of the Gnm driver -/

/-- The two kinds of `SceGpuQueue`. -/
inductive SceQueueType where
  | Graphics
  | Compute
deriving DecidableEq, Repr

/-- A queue object, as built by `SceGpuQueue(device, type)`. -/
structure SceGpuQueue where
  device : Nat
  type : SceQueueType
deriving DecidableEq, Repr

/-- A command buffer handed to the graphics queue. -/
structure SceGpuCommand where
  buffer : Nat
  size : Nat
deriving DecidableEq, Repr

/-- The command list that `SceGpuQueue::record` returns for a command buffer. -/
structure VltCommandList where
  recordedFrom : SceGpuCommand
deriving DecidableEq, Repr

/-- A submission to the graphics queue. -/
structure SceGpuSubmission where
  cmdList : VltCommandList
  wait : Nat
  wake : Nat
deriving DecidableEq, Repr

/-- Calls made by the driver on its collaborators. -/
inductive Effect where
  /-- `std::make_unique<SceGpuQueue>(device, type)`. -/
  | queueCreated (q : SceGpuQueue)
  /-- Destruction of the queue object owned by a `unique_ptr`. -/
  | queueDestroyed (q : SceGpuQueue)
  /-- `LOG_ERR(message)`. -/
  | logErr (message : String)
  /-- `tracker.track(m_swapchain->getImage(index))`. -/
  | trackerTrack (index : Nat)
  /-- `m_graphicsQueue->record(cmd)`. -/
  | queueRecord (cmd : SceGpuCommand)
  /-- `m_graphicsQueue->submit(submission)`. -/
  | queueSubmit (submission : SceGpuSubmission)
  /-- `m_graphicsQueue->synchronize()`. -/
  | queueSynchronize
  /-- `m_swapchain->present(imageIndex)`. -/
  | swapchainPresent (imageIndex : Nat)
  /-- `tracker.reset()`. -/
  | trackerReset
deriving DecidableEq, Repr

/-- The members of `SceGnmDriver` that the modelled functions use. -/
structure SceGnmDriver where
  m_device : Nat
  m_graphicsQueue : SceGpuQueue
  m_computeQueues : Fin MaxComputeQueueCount → Option SceGpuQueue

/-- The driver together with what it acts on: guest memory and the log of
calls on the collaborators. -/
structure GpuWorld where
  driver : SceGnmDriver
  memory : Nat → Nat
  effects : List Effect

/-- Store of a 32-bit word. -/
def writeU32 (memory : Nat → Nat) (addr value : Nat) : Nat → Nat :=
  fun a => if a = addr then value else memory a

/-- The statement `m_computeQueues[i] = std::make_unique<SceGpuQueue>(...)`: the
new queue is built, stored, and the queue that the slot owned before, if any,
is destroyed. -/
def assignComputeQueue (w : GpuWorld) (i : Fin MaxComputeQueueCount)
    (q : SceGpuQueue) : GpuWorld :=
  { w with
    driver := { w.driver with
      m_computeQueues := Function.update w.driver.m_computeQueues i (some q) }
    effects := w.effects ++ [Effect.queueCreated q] ++
      (match w.driver.m_computeQueues i with
       | some old => [Effect.queueDestroyed old]
       | none => []) }

/-- The statement `m_computeQueues[i].reset()`. -/
def resetComputeQueue (w : GpuWorld) (i : Fin MaxComputeQueueCount) : GpuWorld :=
  { w with
    driver := { w.driver with
      m_computeQueues := Function.update w.driver.m_computeQueues i none }
    effects := w.effects ++
      (match w.driver.m_computeQueues i with
       | some old => [Effect.queueDestroyed old]
       | none => []) }

/-- `SceGnmDriver::mapComputeQueue`. Each `break` of the `do ... while (false)` is
a return of the value that `vqueueId` holds then; its initial value
`SCE_GNM_ERROR_UNKNOWN` is overwritten on every path. -/
def mapComputeQueue (w : GpuWorld)
    (pipeId queueId ringBaseAddr ringSizeInDW readPtrAddr : Nat) :
    Result GpuWorld Nat :=
  if pipeId ≥ MaxPipeId then
    .ok (toUInt32 SCE_GNM_ERROR_COMPUTEQUEUE_INVALID_PIPE_ID) w
  else if queueId ≥ MaxQueueId then
    .ok (toUInt32 SCE_GNM_ERROR_COMPUTEQUEUE_INVALID_QUEUE_ID) w
  else if ringBaseAddr % 256 ≠ 0 then
    .ok (toUInt32 SCE_GNM_ERROR_COMPUTEQUEUE_INVALID_RING_BASE_ADDR) w
  else if !isPowerOfTwo ringSizeInDW then
    .ok (toUInt32 SCE_GNM_ERROR_COMPUTEQUEUE_INVALID_RING_SIZE) w
  else if readPtrAddr % 4 ≠ 0 then
    .ok (toUInt32 SCE_GNM_ERROR_COMPUTEQUEUE_INVALID_READ_PTR_ADDR) w
  else
    let w1 : GpuWorld := { w with memory := writeU32 w.memory readPtrAddr 0 }
    let vqueueId : Int := toInt32 (u32 (VQueueIdBegin + pipeId * MaxPipeId + queueId))
    if toUInt32 vqueueId ≥ MaxComputeQueueCount then
      .ok (toUInt32 vqueueId)
        { w1 with effects := w1.effects ++
            [Effect.logErr "vqueueId is larger than max queue count."] }
    else
      let vqueueIndex : Nat := u32 (toUInt32 vqueueId + 2 ^ 32 - VQueueIdBegin)
      if h : vqueueIndex < MaxComputeQueueCount then
        .ok (toUInt32 vqueueId)
          (assignComputeQueue w1 ⟨vqueueIndex, h⟩
            { device := w.driver.m_device, type := SceQueueType.Compute })
      else
        .fault (Fault.indexOutOfRange vqueueIndex) w1

/-- `SceGnmDriver::unmapComputeQueue`. -/
def unmapComputeQueue (w : GpuWorld) (vqueueId : Nat) : Result GpuWorld Unit :=
  if vqueueId ≥ MaxComputeQueueCount then
    .ok () { w with effects := w.effects ++
        [Effect.logErr "vqueueId is larger than max queue count."] }
  else
    let vqueueIndex : Nat := u32 (vqueueId + 2 ^ 32 - VQueueIdBegin)
    if h : vqueueIndex < MaxComputeQueueCount then
      .ok () (resetComputeQueue w ⟨vqueueIndex, h⟩)
    else
      .fault (Fault.indexOutOfRange vqueueIndex) w

/-- Modelled from the spec: the macro `LOG_ASSERT` of the logging header, which is
not among the sources; the spec calls a failed assertion fatal ("rejected with
an assertion", "fatal assertions", "terminate the process"). The call goes on
with `next` when the condition holds and stops at the assertion otherwise. -/
def LOG_ASSERT {σ α : Type} (condition : Bool) (message : String) (w : σ)
    (next : σ → Result σ α) : Result σ α :=
  if condition then next w else .fault (Fault.assertion message) w

/-- `SceGnmDriver::trackRenderTarget`. -/
def trackRenderTarget (w : GpuWorld) (index : Nat) : GpuWorld :=
  { w with effects := w.effects ++ [Effect.trackerTrack index] }

/-- `SceGnmDriver::resetResourceTracker`. -/
def resetResourceTracker (w : GpuWorld) : GpuWorld :=
  { w with effects := w.effects ++ [Effect.trackerReset] }

/-- The call `m_graphicsQueue->record(cmd)`; the code of `SceGpuQueue` is outside
the sources, the call is logged and yields the command list of `cmd`. -/
def queueRecord (w : GpuWorld) (cmd : SceGpuCommand) : VltCommandList × GpuWorld :=
  ({ recordedFrom := cmd }, { w with effects := w.effects ++ [Effect.queueRecord cmd] })

/-- `SceGnmDriver::submitPresent`. -/
def submitPresent (w : GpuWorld) (cmdList : VltCommandList) (imageIndex : Nat) :
    GpuWorld :=
  let submission : SceGpuSubmission :=
    { cmdList := cmdList, wait := VK_NULL_HANDLE, wake := VK_NULL_HANDLE }
  let w1 : GpuWorld := { w with effects := w.effects ++ [Effect.queueSubmit submission] }
  let w2 : GpuWorld := { w1 with effects := w1.effects ++ [Effect.queueSynchronize] }
  { w2 with effects := w2.effects ++ [Effect.swapchainPresent imageIndex] }

/-- `SceGnmDriver::submitAndFlipCommandBuffers`. The arrays are given by their
entries, `dcbGpuAddrs i` being `dcbGpuAddrs[i]`. -/
def submitAndFlipCommandBuffers (w : GpuWorld) (count : Nat)
    (dcbGpuAddrs dcbSizesInBytes ccbGpuAddrs ccbSizesInBytes : Nat → Nat)
    (videoOutHandle displayBufferIndex flipMode : Nat) (flipArg : Int) :
    Result GpuWorld Int :=
  LOG_ASSERT (count == 1) "Currently only support 1 cmdbuff at one call." w fun w =>
    let w1 := trackRenderTarget w displayBufferIndex
    let cmd : SceGpuCommand := { buffer := dcbGpuAddrs 0, size := dcbSizesInBytes 0 }
    let (cmdList, w2) := queueRecord w1 cmd
    let w3 := submitPresent w2 cmdList displayBufferIndex
    let w4 := resetResourceTracker w3
    .ok SCE_OK w4

/-- `SceGnmDriver::submitCommandBuffers`. -/
def submitCommandBuffers (w : GpuWorld) (count : Nat)
    (dcbGpuAddrs dcbSizesInBytes ccbGpuAddrs ccbSizesInBytes : Nat → Nat) :
    Result GpuWorld Int :=
  submitAndFlipCommandBuffers w count dcbGpuAddrs dcbSizesInBytes
    ccbGpuAddrs ccbSizesInBytes 0 0 0 0

/-! ## The GPU event and its pool (`VltGpuEvent.cpp`) -/

/-- Calls made on the host: the Vulkan entry points for events, and the logger. -/
inductive HostCall where
  | vkCreateEvent (device : Nat)
  | vkGetEventStatus (device event : Nat)
  | vkSetEvent (device event : Nat)
  | vkResetEvent (device event : Nat)
  | vkDestroyEvent (device event : Nat)
  | loggerErr (message : String)
deriving DecidableEq, Repr

/-- The host seen from the event code. `eventStatus` is what `vkGetEventStatus`
answers for each handle (any `VkResult`, so a lost device is covered),
`createResult k` is the `VkResult` of the `k`-th `vkCreateEvent` call,
`createCount` counts these calls and `calls` logs every call, oldest first. -/
structure Host where
  eventStatus : Nat → Int
  createResult : Nat → Int
  createCount : Nat
  calls : List HostCall

/-- The host call `vkCreateEvent`: on `VK_SUCCESS` it yields a new handle, which is
not null, for an event in the unsignaled state. -/
def vkCreateEvent (h : Host) (device : Nat) : (Int × Nat) × Host :=
  let status := h.createResult h.createCount
  let h1 : Host := { h with
    createCount := h.createCount + 1
    calls := h.calls ++ [HostCall.vkCreateEvent device] }
  if status = VK_SUCCESS then
    let event := h.createCount + 1
    ((status, event),
      { h1 with eventStatus := Function.update h1.eventStatus event VK_EVENT_RESET })
  else
    ((status, VK_NULL_HANDLE), h1)

/-- The host call `vkGetEventStatus`. -/
def vkGetEventStatus (h : Host) (device event : Nat) : Int × Host :=
  (h.eventStatus event,
    { h with calls := h.calls ++ [HostCall.vkGetEventStatus device event] })

/-- The host call `vkSetEvent`. -/
def vkSetEvent (h : Host) (device event : Nat) : Host :=
  { h with
    eventStatus := Function.update h.eventStatus event VK_EVENT_SET
    calls := h.calls ++ [HostCall.vkSetEvent device event] }

/-- The host call `vkResetEvent`. -/
def vkResetEvent (h : Host) (device event : Nat) : Host :=
  { h with
    eventStatus := Function.update h.eventStatus event VK_EVENT_RESET
    calls := h.calls ++ [HostCall.vkResetEvent device event] }

/-- The three results of `VltGpuEvent::test`. -/
inductive VltGpuEventStatus where
  | Invalid
  | UnSignaled
  | Signaled
deriving DecidableEq, Repr

/-- The pair `{ pool, event }` that `allocEvent` builds with `{ this, event }`; the
value-initialised `VltGpuEventHandle()` is the pair of two nulls. -/
structure VltGpuEventHandle where
  pool : Nat := 0
  event : Nat := VK_NULL_HANDLE
deriving DecidableEq, Repr

/-- The members of `VltGpuEvent`. -/
structure VltGpuEvent where
  m_device : Nat
  m_handle : VltGpuEventHandle
deriving DecidableEq, Repr

/-- The members of `VltGpuEventPool`, and `self`, the address of the pool
(`this`). The back of the vector `m_events` is the last entry of the list. -/
structure VltGpuEventPool where
  self : Nat
  m_device : Nat
  m_events : List Nat
deriving DecidableEq, Repr

/-- `VltGpuEvent::test`. -/
def VltGpuEvent.test (e : VltGpuEvent) (h : Host) : VltGpuEventStatus × Host :=
  if e.m_handle.event = VK_NULL_HANDLE then
    (VltGpuEventStatus.Invalid, h)
  else
    let (status, h1) := vkGetEventStatus h e.m_device e.m_handle.event
    if status = VK_EVENT_SET then (VltGpuEventStatus.Signaled, h1)
    else if status = VK_EVENT_RESET then (VltGpuEventStatus.UnSignaled, h1)
    else (VltGpuEventStatus.Invalid, h1)

/-- `VltGpuEvent::signal`. -/
def VltGpuEvent.signal (e : VltGpuEvent) (h : Host) : Host :=
  vkSetEvent h e.m_device e.m_handle.event

/-- `VltGpuEvent::reset`. -/
def VltGpuEvent.reset (e : VltGpuEvent) (h : Host) : Host :=
  vkResetEvent h e.m_device e.m_handle.event

/-- `VltGpuEventPool::freeEvent`. -/
def VltGpuEventPool.freeEvent (p : VltGpuEventPool) (event : Nat) : VltGpuEventPool :=
  { p with m_events := p.m_events ++ [event] }

/-- `VltGpuEventPool::allocEvent`. -/
def VltGpuEventPool.allocEvent (p : VltGpuEventPool) (h : Host) :
    VltGpuEventHandle × VltGpuEventPool × Host :=
  let popped : Nat × VltGpuEventPool :=
    if hne : 0 < p.m_events.length then
      (p.m_events.getLast (List.ne_nil_of_length_pos hne),
        { p with m_events := p.m_events.dropLast })
    else
      (VK_NULL_HANDLE, p)
  if popped.1 = VK_NULL_HANDLE then
    let ((status, event), h1) := vkCreateEvent h p.m_device
    if status ≠ VK_SUCCESS then
      ({}, popped.2,
        { h1 with calls := h1.calls ++
            [HostCall.loggerErr "DXVK: Failed to create GPU event"] })
    else
      ({ pool := p.self, event := event }, popped.2, h1)
  else
    ({ pool := p.self, event := popped.1 }, popped.2, h)

/-- `VltGpuEvent::~VltGpuEvent`, `p` being the pool that `m_handle.pool` points to. -/
def VltGpuEvent.destructor (e : VltGpuEvent) (p : VltGpuEventPool) : VltGpuEventPool :=
  if e.m_handle.pool ≠ 0 ∧ e.m_handle.event ≠ VK_NULL_HANDLE then
    p.freeEvent e.m_handle.event
  else
    p

/-! ## The resource object (`SceResource.h`) -/

/-- The enumeration `SceResourceType`. -/
inductive SceResourceType where
  | Buffer
  | Texture
  | RenderTarget
  | DepthRenderTarget
deriving DecidableEq, Repr

/-- The values of the enumerators of `SceResourceType`. -/
def SceResourceType.value : SceResourceType → Nat
  | SceResourceType.Buffer => 0
  | SceResourceType.Texture => 1
  | SceResourceType.RenderTarget => 2
  | SceResourceType.DepthRenderTarget => 3

/-- Modelled from the spec: `util::Flags<SceResourceType>` of `UtilFlag.h`, which is
not among the sources; the spec calls it "a set of type flags (Buffer, Texture,
RenderTarget, DepthRenderTarget) indicating which typed views are currently
valid". It is kept as a bit mask, bit `value t` standing for the flag `t`. -/
structure SceResourceTypeFlags where
  raw : Nat
deriving DecidableEq, Repr

/-- Modelled from the spec: `Flags::set` of `UtilFlag.h`, which is not among the
sources; it adds one flag to the set. -/
def SceResourceTypeFlags.set (f : SceResourceTypeFlags) (t : SceResourceType) :
    SceResourceTypeFlags :=
  { raw := f.raw ||| (1 <<< t.value) }

/-- Modelled from the spec: `Flags::test` of `UtilFlag.h`, which is not among the
sources; it tells whether the set contains the flag. -/
def SceResourceTypeFlags.test (f : SceResourceTypeFlags) (t : SceResourceType) : Bool :=
  (f.raw >>> t.value) % 2 == 1

/-- The view `SceBuffer`: the Gnm descriptor and the two Vulkan objects, as
opaque handles. The member functions `cpuMemory()`, `gpuMemory()` and
`memorySize()` are declared in the header and defined outside the sources;
their results are given with the view. -/
structure SceBuffer where
  gnmBuffer : Nat := 0
  buffer : Nat := 0
  bufferView : Nat := 0
  cpuMemory : Nat := 0
  gpuMemory : Nat := 0
  memorySize : Nat := 0
deriving DecidableEq, Repr

/-- The view `SceTexture`, given like `SceBuffer`. -/
structure SceTexture where
  texture : Nat := 0
  image : Nat := 0
  imageView : Nat := 0
  cpuMemory : Nat := 0
  gpuMemory : Nat := 0
  memorySize : Nat := 0
deriving DecidableEq, Repr

/-- The view `SceRenderTarget`, given like `SceBuffer`. -/
structure SceRenderTarget where
  renderTarget : Nat := 0
  image : Nat := 0
  imageView : Nat := 0
  cpuMemory : Nat := 0
  gpuMemory : Nat := 0
  memorySize : Nat := 0
deriving DecidableEq, Repr

/-- The view `SceDepthRenderTarget`, given like `SceBuffer`. -/
structure SceDepthRenderTarget where
  depthRenderTarget : Nat := 0
  image : Nat := 0
  imageView : Nat := 0
  cpuMemory : Nat := 0
  gpuMemory : Nat := 0
  memorySize : Nat := 0
deriving DecidableEq, Repr

/-- The member `std::variant<SceRenderTarget, SceDepthRenderTarget> m_target`. -/
inductive SceTarget where
  | renderTarget (view : SceRenderTarget)
  | depthRenderTarget (view : SceDepthRenderTarget)
deriving DecidableEq, Repr

/-- The members of `SceResource`. -/
structure SceResource where
  m_gpuMemory : Nat := 0
  m_cpuMemory : Nat := 0
  m_memSize : Nat := 0
  m_type : SceResourceTypeFlags := { raw := 0 }
  m_buffer : SceBuffer := {}
  m_texture : SceTexture := {}
  m_target : SceTarget := SceTarget.renderTarget {}
deriving DecidableEq, Repr

/-- `SceResource::gpuMemory`. -/
def SceResource.gpuMemory (r : SceResource) : Nat := r.m_gpuMemory

/-- `SceResource::cpuMemory`. -/
def SceResource.cpuMemory (r : SceResource) : Nat := r.m_cpuMemory

/-- `SceResource::size`. -/
def SceResource.size (r : SceResource) : Nat := r.m_memSize

/-- `SceResource::type`. -/
def SceResource.type (r : SceResource) : SceResourceTypeFlags := r.m_type

/-- `SceResource::buffer`. -/
def SceResource.buffer (r : SceResource) : SceBuffer := r.m_buffer

/-- `SceResource::texture`. -/
def SceResource.texture (r : SceResource) : SceTexture := r.m_texture

/-- Modelled from the spec: the constructor `SceResource(const SceBuffer&)` of
`SceResource.cpp`, which is not among the sources. The resource is "constructed
from exactly one typed view", it "owns exactly one backing allocation, exposed
as two addresses [...] plus a byte size", and one "constructed as a Buffer has
`type()` containing only Buffer". The other members keep the values of their
default initialisers. -/
def SceResource.fromBuffer (buffer : SceBuffer) : SceResource :=
  { m_gpuMemory := buffer.gpuMemory
    m_cpuMemory := buffer.cpuMemory
    m_memSize := buffer.memorySize
    m_type := SceResourceTypeFlags.set { raw := 0 } SceResourceType.Buffer
    m_buffer := buffer }

/-- Modelled from the spec: `SceResource::setTexture` of `SceResource.cpp`, which is
not among the sources. "Any subsequent `setX(view)` replaces that view's data
without touching the shared backing pointers/size", and `setTexture` "makes
`type()` contain both Buffer and Texture" on a buffer resource: the texture
view is replaced and the Texture flag is added. -/
def SceResource.setTexture (r : SceResource) (texture : SceTexture) : SceResource :=
  { r with
    m_texture := texture
    m_type := r.m_type.set SceResourceType.Texture }

/-- The invariant of the freelist: it holds no `VK_NULL_HANDLE`. A new pool has
an empty freelist, `allocEvent` only removes entries, and `freeEvent` is called
by `~VltGpuEvent` alone, under the guard `m_handle.pool && m_handle.event`. -/
def VltGpuEventPool.nullFree (p : VltGpuEventPool) : Prop :=
  ∀ e ∈ p.m_events, e ≠ VK_NULL_HANDLE

/-! ## Auxiliary definitions for the statements -/

/-- The five error codes of `mapComputeQueue`, in the order of its checks. -/
def computeQueueErrors : List Int :=
  [SCE_GNM_ERROR_COMPUTEQUEUE_INVALID_PIPE_ID,
   SCE_GNM_ERROR_COMPUTEQUEUE_INVALID_QUEUE_ID,
   SCE_GNM_ERROR_COMPUTEQUEUE_INVALID_RING_BASE_ADDR,
   SCE_GNM_ERROR_COMPUTEQUEUE_INVALID_RING_SIZE,
   SCE_GNM_ERROR_COMPUTEQUEUE_INVALID_READ_PTR_ADDR]

/-- A world to evaluate the driver on: no compute queue mapped, memory holding
the word `0xDEADBEEF` everywhere, nothing logged. -/
def world0 : GpuWorld :=
  { driver :=
      { m_device := 1
        m_graphicsQueue := { device := 1, type := SceQueueType.Graphics }
        m_computeQueues := fun _ => none }
    memory := fun _ => 0xDEADBEEF
    effects := [] }

/-- A world where two compute queues are mapped, in the slots 7 and 20. -/
def world1 : GpuWorld :=
  { world0 with
    driver := { world0.driver with
      m_computeQueues := fun j =>
        if j.val = 7 ∨ j.val = 20 then
          some { device := 1, type := SceQueueType.Compute }
        else none } }

/-- A host on which every `vkCreateEvent` succeeds; no event was created yet and
`vkGetEventStatus` reports `VK_ERROR_DEVICE_LOST` (-4) for the handles that
were never created. -/
def host0 : Host :=
  { eventStatus := fun _ => -4
    createResult := fun _ => VK_SUCCESS
    createCount := 0
    calls := [] }

/-- A pool with an empty freelist. -/
def pool0 : VltGpuEventPool :=
  { self := 0x7000, m_device := 1, m_events := [] }

/-- A pool whose freelist holds the events 3 and 5, freed in this order. -/
def poolTwo : VltGpuEventPool :=
  (pool0.freeEvent 3).freeEvent 5

/-- A host on which every `vkCreateEvent` fails with
`VK_ERROR_OUT_OF_HOST_MEMORY` (-1). -/
def hostFail : Host :=
  { host0 with createResult := fun _ => -1 }

/-- A buffer view over 256 bytes. -/
def buffer0 : SceBuffer :=
  { gnmBuffer := 11, buffer := 21, bufferView := 31,
    cpuMemory := 0x10000, gpuMemory := 0x8000, memorySize := 256 }

/-- A texture view; it reports another memory than `buffer0`. -/
def texture0 : SceTexture :=
  { texture := 12, image := 22, imageView := 32,
    cpuMemory := 0x20000, gpuMemory := 0x9000, memorySize := 4096 }

/-! ## Arithmetic lemmas -/

theorem toUInt32_toInt32 (x : Nat) : toUInt32 (toInt32 x) = x % 2 ^ 32 := by
  unfold toUInt32 toInt32
  split <;> omega

theorem isPowerOfTwo_iff (x : Nat) (hx : x < 2 ^ 32) :
    isPowerOfTwo x = true ↔ ∃ k, x = 2 ^ k := by
  unfold isPowerOfTwo
  simp only [List.any_eq_true, List.mem_range, beq_iff_eq]
  constructor
  · rintro ⟨k, _, hk⟩
    exact ⟨k, hk⟩
  · rintro ⟨k, hk⟩
    refine ⟨k, ?_, hk⟩
    subst hk
    exact (Nat.pow_lt_pow_iff_right (by norm_num)).mp hx


theorem not_isPowerOfTwo (x : Nat) (hx : ¬ ∃ k, x = 2 ^ k) : isPowerOfTwo x = false := by
  cases hp : isPowerOfTwo x
  · rfl
  · exfalso
    apply hx
    unfold isPowerOfTwo at hp
    simp only [List.any_eq_true, List.mem_range, beq_iff_eq] at hp
    obtain ⟨k, _, hk⟩ := hp
    exact ⟨k, hk⟩

theorem vqueueId_roundtrip (pipeId queueId : Nat) (hpipe : pipeId < MaxPipeId)
    (hqueue : queueId < MaxQueueId) :
    toUInt32 (toInt32 (u32 (VQueueIdBegin + pipeId * MaxPipeId + queueId)))
      = VQueueIdBegin + pipeId * MaxPipeId + queueId := by
  rw [toUInt32_toInt32]
  simp only [u32, VQueueIdBegin, MaxPipeId, MaxQueueId] at *
  omega

theorem vqueueIndex_eq (vqueueId : Nat) (h1 : VQueueIdBegin ≤ vqueueId)
    (h2 : vqueueId < MaxComputeQueueCount) :
    u32 (vqueueId + 2 ^ 32 - VQueueIdBegin) = vqueueId - VQueueIdBegin := by
  simp only [u32, VQueueIdBegin, MaxComputeQueueCount, MaxPipeId, MaxQueueId] at *
  omega

/-! ## `mapComputeQueue` and `unmapComputeQueue` -/

/-- The result of `mapComputeQueue` on arguments that pass the five checks. -/
theorem mapComputeQueue_valid (w : GpuWorld)
    (pipeId queueId ringBaseAddr ringSizeInDW readPtrAddr : Nat)
    (hpipe : pipeId < MaxPipeId) (hqueue : queueId < MaxQueueId)
    (hbase : ringBaseAddr % 256 = 0)
    (hsize : isPowerOfTwo ringSizeInDW = true)
    (hread : readPtrAddr % 4 = 0) :
    ∃ hidx : VQueueIdBegin + pipeId * MaxPipeId + queueId - VQueueIdBegin
        < MaxComputeQueueCount,
      mapComputeQueue w pipeId queueId ringBaseAddr ringSizeInDW readPtrAddr
        = Result.ok (VQueueIdBegin + pipeId * MaxPipeId + queueId)
            (assignComputeQueue { w with memory := writeU32 w.memory readPtrAddr 0 }
              ⟨VQueueIdBegin + pipeId * MaxPipeId + queueId - VQueueIdBegin, hidx⟩
              { device := w.driver.m_device, type := SceQueueType.Compute }) := by
  have hid := vqueueId_roundtrip pipeId queueId hpipe hqueue
  have hlt : VQueueIdBegin + pipeId * MaxPipeId + queueId < MaxComputeQueueCount := by
    simp only [VQueueIdBegin, MaxComputeQueueCount, MaxPipeId, MaxQueueId] at *
    omega
  have hge : VQueueIdBegin ≤ VQueueIdBegin + pipeId * MaxPipeId + queueId := by omega
  have hix := vqueueIndex_eq _ hge hlt
  have hidx : VQueueIdBegin + pipeId * MaxPipeId + queueId - VQueueIdBegin
      < MaxComputeQueueCount := by omega
  refine ⟨hidx, ?_⟩
  unfold mapComputeQueue
  rw [if_neg (by omega), if_neg (by omega), if_neg (by simp [hbase]),
    if_neg (by simp [hsize]), if_neg (by simp [hread])]
  simp only [hid, hix]
  rw [if_neg (by omega), dif_pos hidx]

/-- C1: for pipeId < MaxPipeId, queueId < MaxQueueId, a ring base that is a
multiple of 256, a ring size (a `uint32_t`) that is a power of two and a read
pointer that is a multiple of 4, `mapComputeQueue` returns the positive virtual
id `VQueueIdBegin + pipeId * MaxPipeId + queueId`, the word at `readPtrAddr` is
0 afterwards, and the table slot at index `id - VQueueIdBegin` holds a queue
(a compute queue of the driver's device). -/
theorem C1_mapComputeQueue_succeeds (w : GpuWorld)
    (pipeId queueId ringBaseAddr ringSizeInDW readPtrAddr : Nat)
    (hpipe : pipeId < MaxPipeId) (hqueue : queueId < MaxQueueId)
    (hbase : ringBaseAddr % 256 = 0)
    (hsize : ∃ k, ringSizeInDW = 2 ^ k) (hsize32 : ringSizeInDW < 2 ^ 32)
    (hread : readPtrAddr % 4 = 0) :
    ∃ (w' : GpuWorld)
      (hidx : VQueueIdBegin + pipeId * MaxPipeId + queueId - VQueueIdBegin
        < MaxComputeQueueCount),
      mapComputeQueue w pipeId queueId ringBaseAddr ringSizeInDW readPtrAddr
        = Result.ok (VQueueIdBegin + pipeId * MaxPipeId + queueId) w'
      ∧ 0 < VQueueIdBegin + pipeId * MaxPipeId + queueId
      ∧ w'.memory readPtrAddr = 0
      ∧ w'.driver.m_computeQueues
          ⟨VQueueIdBegin + pipeId * MaxPipeId + queueId - VQueueIdBegin, hidx⟩
          = some { device := w.driver.m_device, type := SceQueueType.Compute } := by
  obtain ⟨hidx, hres⟩ := mapComputeQueue_valid w pipeId queueId ringBaseAddr
    ringSizeInDW readPtrAddr hpipe hqueue hbase
    ((isPowerOfTwo_iff _ hsize32).mpr hsize) hread
  refine ⟨_, hidx, hres, ?_, ?_, ?_⟩
  · simp [VQueueIdBegin]
  · simp [assignComputeQueue, writeU32]
  · simp [assignComputeQueue]

/-- C1 at pipe 2, queue 3, ring base 0x1000, ring size 128, read pointer 0x2004. -/
theorem C1_mapComputeQueue_succeeds_witness :
    ∃ (w' : GpuWorld) (hidx : VQueueIdBegin + 2 * MaxPipeId + 3 - VQueueIdBegin
        < MaxComputeQueueCount),
      mapComputeQueue world0 2 3 0x1000 128 0x2004
        = Result.ok (VQueueIdBegin + 2 * MaxPipeId + 3) w'
      ∧ 0 < VQueueIdBegin + 2 * MaxPipeId + 3
      ∧ w'.memory 0x2004 = 0
      ∧ w'.driver.m_computeQueues ⟨VQueueIdBegin + 2 * MaxPipeId + 3 - VQueueIdBegin, hidx⟩
          = some { device := world0.driver.m_device, type := SceQueueType.Compute } :=
  C1_mapComputeQueue_succeeds world0 2 3 0x1000 128 0x2004 (by decide) (by decide)
    (by decide) ⟨7, by decide⟩ (by decide) (by decide)

/-- The result of `mapComputeQueue` when a check fails: the code of the first
failed check, and the world it was called in. -/
theorem mapComputeQueue_invalid (w : GpuWorld)
    (pipeId queueId ringBaseAddr ringSizeInDW readPtrAddr : Nat) :
    (MaxPipeId ≤ pipeId →
      mapComputeQueue w pipeId queueId ringBaseAddr ringSizeInDW readPtrAddr
        = Result.ok (toUInt32 SCE_GNM_ERROR_COMPUTEQUEUE_INVALID_PIPE_ID) w)
    ∧ (pipeId < MaxPipeId → MaxQueueId ≤ queueId →
      mapComputeQueue w pipeId queueId ringBaseAddr ringSizeInDW readPtrAddr
        = Result.ok (toUInt32 SCE_GNM_ERROR_COMPUTEQUEUE_INVALID_QUEUE_ID) w)
    ∧ (pipeId < MaxPipeId → queueId < MaxQueueId → ringBaseAddr % 256 ≠ 0 →
      mapComputeQueue w pipeId queueId ringBaseAddr ringSizeInDW readPtrAddr
        = Result.ok (toUInt32 SCE_GNM_ERROR_COMPUTEQUEUE_INVALID_RING_BASE_ADDR) w)
    ∧ (pipeId < MaxPipeId → queueId < MaxQueueId → ringBaseAddr % 256 = 0 →
      isPowerOfTwo ringSizeInDW = false →
      mapComputeQueue w pipeId queueId ringBaseAddr ringSizeInDW readPtrAddr
        = Result.ok (toUInt32 SCE_GNM_ERROR_COMPUTEQUEUE_INVALID_RING_SIZE) w)
    ∧ (pipeId < MaxPipeId → queueId < MaxQueueId → ringBaseAddr % 256 = 0 →
      isPowerOfTwo ringSizeInDW = true → readPtrAddr % 4 ≠ 0 →
      mapComputeQueue w pipeId queueId ringBaseAddr ringSizeInDW readPtrAddr
        = Result.ok (toUInt32 SCE_GNM_ERROR_COMPUTEQUEUE_INVALID_READ_PTR_ADDR) w) := by
  refine ⟨?_, ?_, ?_, ?_, ?_⟩
  · intro h1
    unfold mapComputeQueue
    rw [if_pos h1]
  · intro h1 h2
    unfold mapComputeQueue
    rw [if_neg (by omega), if_pos h2]
  · intro h1 h2 h3
    unfold mapComputeQueue
    rw [if_neg (by omega), if_neg (by omega), if_pos h3]
  · intro h1 h2 h3 h4
    unfold mapComputeQueue
    rw [if_neg (by omega), if_neg (by omega), if_neg (by simp [h3]),
      if_pos (by simp [h4])]
  · intro h1 h2 h3 h4 h5
    unfold mapComputeQueue
    rw [if_neg (by omega), if_neg (by omega), if_neg (by simp [h3]),
      if_neg (by simp [h4]), if_pos h5]

theorem hundred_not_power_of_two : ¬ ∃ k, (100 : Nat) = 2 ^ k := by
  intro h
  have h2 := (isPowerOfTwo_iff 100 (by decide)).mpr h
  revert h2
  decide

/-- C2: when a precondition is violated, `mapComputeQueue` returns the code of the
first violated check in the order pipe range, queue range, ring-base alignment,
ring-size power of two, read-pointer alignment; the five codes are pairwise
distinct, and each is a negative 32-bit signed value, which the `uint32_t`
return value carries unchanged. -/
theorem C2_mapComputeQueue_first_error (w : GpuWorld)
    (pipeId queueId ringBaseAddr ringSizeInDW readPtrAddr : Nat)
    (hsize32 : ringSizeInDW < 2 ^ 32) :
    (MaxPipeId ≤ pipeId →
      ∃ w', mapComputeQueue w pipeId queueId ringBaseAddr ringSizeInDW readPtrAddr
        = Result.ok (toUInt32 SCE_GNM_ERROR_COMPUTEQUEUE_INVALID_PIPE_ID) w')
    ∧ (pipeId < MaxPipeId → MaxQueueId ≤ queueId →
      ∃ w', mapComputeQueue w pipeId queueId ringBaseAddr ringSizeInDW readPtrAddr
        = Result.ok (toUInt32 SCE_GNM_ERROR_COMPUTEQUEUE_INVALID_QUEUE_ID) w')
    ∧ (pipeId < MaxPipeId → queueId < MaxQueueId → ringBaseAddr % 256 ≠ 0 →
      ∃ w', mapComputeQueue w pipeId queueId ringBaseAddr ringSizeInDW readPtrAddr
        = Result.ok (toUInt32 SCE_GNM_ERROR_COMPUTEQUEUE_INVALID_RING_BASE_ADDR) w')
    ∧ (pipeId < MaxPipeId → queueId < MaxQueueId → ringBaseAddr % 256 = 0 →
      (¬ ∃ k, ringSizeInDW = 2 ^ k) →
      ∃ w', mapComputeQueue w pipeId queueId ringBaseAddr ringSizeInDW readPtrAddr
        = Result.ok (toUInt32 SCE_GNM_ERROR_COMPUTEQUEUE_INVALID_RING_SIZE) w')
    ∧ (pipeId < MaxPipeId → queueId < MaxQueueId → ringBaseAddr % 256 = 0 →
      (∃ k, ringSizeInDW = 2 ^ k) → readPtrAddr % 4 ≠ 0 →
      ∃ w', mapComputeQueue w pipeId queueId ringBaseAddr ringSizeInDW readPtrAddr
        = Result.ok (toUInt32 SCE_GNM_ERROR_COMPUTEQUEUE_INVALID_READ_PTR_ADDR) w')
    ∧ computeQueueErrors.Pairwise (fun a b => a ≠ b)
    ∧ ∀ c ∈ computeQueueErrors, -(2 : Int) ^ 31 ≤ c ∧ c < 0 ∧ toInt32 (toUInt32 c) = c := by
  obtain ⟨e1, e2, e3, e4, e5⟩ :=
    mapComputeQueue_invalid w pipeId queueId ringBaseAddr ringSizeInDW readPtrAddr
  refine ⟨fun h1 => ⟨w, e1 h1⟩, fun h1 h2 => ⟨w, e2 h1 h2⟩,
    fun h1 h2 h3 => ⟨w, e3 h1 h2 h3⟩,
    fun h1 h2 h3 h4 => ⟨w, e4 h1 h2 h3 (not_isPowerOfTwo _ h4)⟩,
    fun h1 h2 h3 h4 h5 => ⟨w, e5 h1 h2 h3 ((isPowerOfTwo_iff _ hsize32).mpr h4) h5⟩,
    by decide, by decide⟩

/-- C2 at ring size 100, all other arguments valid: the ring-size code. -/
theorem C2_mapComputeQueue_first_error_witness :
    ∃ w', mapComputeQueue world0 0 0 0 100 0
      = Result.ok (toUInt32 SCE_GNM_ERROR_COMPUTEQUEUE_INVALID_RING_SIZE) w' :=
  (C2_mapComputeQueue_first_error world0 0 0 0 100 0 (by decide)).2.2.2.1
    (by decide) (by decide) (by decide) hundred_not_power_of_two

/-- C3: `mapComputeQueue` fails closed. When one of the five preconditions is
violated the call returns in the world it was called in: the compute-queue
table and the graphics queue are as before, no call on a collaborator is made
(no queue is created), and guest memory, the word at `readPtrAddr` included, is
as before. -/
theorem C3_mapComputeQueue_fails_closed (w : GpuWorld)
    (pipeId queueId ringBaseAddr ringSizeInDW readPtrAddr : Nat)
    (hviolated : MaxPipeId ≤ pipeId ∨ MaxQueueId ≤ queueId ∨ ringBaseAddr % 256 ≠ 0
      ∨ (¬ ∃ k, ringSizeInDW = 2 ^ k) ∨ readPtrAddr % 4 ≠ 0) :
    ∃ (ret : Nat) (w' : GpuWorld),
      mapComputeQueue w pipeId queueId ringBaseAddr ringSizeInDW readPtrAddr
        = Result.ok ret w'
      ∧ w' = w
      ∧ w'.driver.m_computeQueues = w.driver.m_computeQueues
      ∧ w'.driver.m_graphicsQueue = w.driver.m_graphicsQueue
      ∧ w'.effects = w.effects
      ∧ w'.memory readPtrAddr = w.memory readPtrAddr := by
  obtain ⟨e1, e2, e3, e4, e5⟩ :=
    mapComputeQueue_invalid w pipeId queueId ringBaseAddr ringSizeInDW readPtrAddr
  have key : ∃ ret, mapComputeQueue w pipeId queueId ringBaseAddr ringSizeInDW
      readPtrAddr = Result.ok ret w := by
    by_cases h1 : MaxPipeId ≤ pipeId
    · exact ⟨_, e1 h1⟩
    by_cases h2 : MaxQueueId ≤ queueId
    · exact ⟨_, e2 (by omega) h2⟩
    by_cases h3 : ringBaseAddr % 256 ≠ 0
    · exact ⟨_, e3 (by omega) (by omega) h3⟩
    cases h4 : isPowerOfTwo ringSizeInDW
    · exact ⟨_, e4 (by omega) (by omega) (by omega) h4⟩
    by_cases h5 : readPtrAddr % 4 ≠ 0
    · exact ⟨_, e5 (by omega) (by omega) (by omega) h4 h5⟩
    exfalso
    rcases hviolated with h | h | h | h | h
    · exact h1 h
    · exact h2 h
    · exact h3 h
    · rw [not_isPowerOfTwo _ h] at h4
      exact Bool.noConfusion h4
    · exact h5 h
  obtain ⟨ret, hret⟩ := key
  exact ⟨ret, w, hret, rfl, rfl, rfl, rfl, rfl⟩

/-- C3 at a ring base of 0x1001, which is not a multiple of 256. -/
theorem C3_mapComputeQueue_fails_closed_witness :
    ∃ (ret : Nat) (w' : GpuWorld),
      mapComputeQueue world0 2 3 0x1001 128 0x2004 = Result.ok ret w'
      ∧ w' = world0
      ∧ w'.driver.m_computeQueues = world0.driver.m_computeQueues
      ∧ w'.driver.m_graphicsQueue = world0.driver.m_graphicsQueue
      ∧ w'.effects = world0.effects
      ∧ w'.memory 0x2004 = world0.memory 0x2004 :=
  C3_mapComputeQueue_fails_closed world0 2 3 0x1001 128 0x2004
    (Or.inr (Or.inr (Or.inl (by decide))))

/-- The result of `unmapComputeQueue` on an id of the table. -/
theorem unmapComputeQueue_valid (w : GpuWorld) (vqueueId : Nat)
    (h1 : VQueueIdBegin ≤ vqueueId) (h2 : vqueueId < MaxComputeQueueCount) :
    ∃ hidx : vqueueId - VQueueIdBegin < MaxComputeQueueCount,
      unmapComputeQueue w vqueueId
        = Result.ok () (resetComputeQueue w ⟨vqueueId - VQueueIdBegin, hidx⟩) := by
  have hidx : vqueueId - VQueueIdBegin < MaxComputeQueueCount := by omega
  refine ⟨hidx, ?_⟩
  unfold unmapComputeQueue
  rw [if_neg (by omega)]
  simp only [vqueueIndex_eq vqueueId h1 h2]
  rw [dif_pos hidx]

/-- C4: for valid arguments and every world, `mapComputeQueue`, then
`unmapComputeQueue` on the returned id, then `mapComputeQueue` with the same
arguments: both mappings succeed with the same virtual id
`VQueueIdBegin + pipeId * MaxPipeId + queueId`, the unmapping returns, and the
slot of that id holds a queue afterwards. -/
theorem C4_map_unmap_map (w : GpuWorld)
    (pipeId queueId ringBaseAddr ringSizeInDW readPtrAddr : Nat)
    (hpipe : pipeId < MaxPipeId) (hqueue : queueId < MaxQueueId)
    (hbase : ringBaseAddr % 256 = 0)
    (hsize : ∃ k, ringSizeInDW = 2 ^ k) (hsize32 : ringSizeInDW < 2 ^ 32)
    (hread : readPtrAddr % 4 = 0) :
    ∃ (id : Nat) (w1 w2 w3 : GpuWorld) (hidx : id - VQueueIdBegin < MaxComputeQueueCount),
      id = VQueueIdBegin + pipeId * MaxPipeId + queueId
      ∧ 0 < id
      ∧ mapComputeQueue w pipeId queueId ringBaseAddr ringSizeInDW readPtrAddr
          = Result.ok id w1
      ∧ unmapComputeQueue w1 id = Result.ok () w2
      ∧ w2.driver.m_computeQueues ⟨id - VQueueIdBegin, hidx⟩ = none
      ∧ mapComputeQueue w2 pipeId queueId ringBaseAddr ringSizeInDW readPtrAddr
          = Result.ok id w3
      ∧ (w3.driver.m_computeQueues ⟨id - VQueueIdBegin, hidx⟩).isSome = true := by
  have hpow := (isPowerOfTwo_iff _ hsize32).mpr hsize
  obtain ⟨hidx, hmap1⟩ := mapComputeQueue_valid w pipeId queueId ringBaseAddr
    ringSizeInDW readPtrAddr hpipe hqueue hbase hpow hread
  have hlt : VQueueIdBegin + pipeId * MaxPipeId + queueId < MaxComputeQueueCount := by
    simp only [VQueueIdBegin, MaxComputeQueueCount, MaxPipeId, MaxQueueId] at *
    omega
  obtain ⟨_, hunmap⟩ := unmapComputeQueue_valid
    (assignComputeQueue { w with memory := writeU32 w.memory readPtrAddr 0 }
      ⟨VQueueIdBegin + pipeId * MaxPipeId + queueId - VQueueIdBegin, hidx⟩
      { device := w.driver.m_device, type := SceQueueType.Compute })
    (VQueueIdBegin + pipeId * MaxPipeId + queueId) (by omega) hlt
  obtain ⟨_, hmap2⟩ := mapComputeQueue_valid
    (resetComputeQueue
      (assignComputeQueue { w with memory := writeU32 w.memory readPtrAddr 0 }
        ⟨VQueueIdBegin + pipeId * MaxPipeId + queueId - VQueueIdBegin, hidx⟩
        { device := w.driver.m_device, type := SceQueueType.Compute })
      ⟨VQueueIdBegin + pipeId * MaxPipeId + queueId - VQueueIdBegin, hidx⟩)
    pipeId queueId ringBaseAddr ringSizeInDW readPtrAddr hpipe hqueue hbase hpow hread
  refine ⟨_, _, _, _, hidx, rfl, ?_, hmap1, hunmap, ?_, hmap2, ?_⟩
  · simp [VQueueIdBegin]
  · simp [resetComputeQueue]
  · simp [assignComputeQueue]

/-- C4 at pipe 6, queue 7 (the largest id), ring size 128. -/
theorem C4_map_unmap_map_witness :
    ∃ (id : Nat) (w1 w2 w3 : GpuWorld) (hidx : id - VQueueIdBegin < MaxComputeQueueCount),
      id = VQueueIdBegin + 6 * MaxPipeId + 7
      ∧ 0 < id
      ∧ mapComputeQueue world0 6 7 0x100 128 0x10 = Result.ok id w1
      ∧ unmapComputeQueue w1 id = Result.ok () w2
      ∧ w2.driver.m_computeQueues ⟨id - VQueueIdBegin, hidx⟩ = none
      ∧ mapComputeQueue w2 6 7 0x100 128 0x10 = Result.ok id w3
      ∧ (w3.driver.m_computeQueues ⟨id - VQueueIdBegin, hidx⟩).isSome = true :=
  C4_map_unmap_map world0 6 7 0x100 128 0x10 (by decide) (by decide) (by decide)
    ⟨7, by decide⟩ (by decide) (by decide)

/-- C5: `unmapComputeQueue` with vqueueId >= MaxComputeQueueCount is ignored: it
returns with the driver (compute-queue table and graphics queue) and memory
unchanged. With VQueueIdBegin <= vqueueId < MaxComputeQueueCount it returns
with the slot at index `vqueueId - VQueueIdBegin` empty, every other slot of
the table unchanged and the graphics queue unchanged. -/
theorem C5_unmapComputeQueue_frame (w : GpuWorld) (vqueueId : Nat) :
    (MaxComputeQueueCount ≤ vqueueId →
      ∃ w', unmapComputeQueue w vqueueId = Result.ok () w'
        ∧ w'.driver.m_computeQueues = w.driver.m_computeQueues
        ∧ w'.driver.m_graphicsQueue = w.driver.m_graphicsQueue
        ∧ w'.memory = w.memory)
    ∧ (VQueueIdBegin ≤ vqueueId → vqueueId < MaxComputeQueueCount →
      ∃ (w' : GpuWorld) (hidx : vqueueId - VQueueIdBegin < MaxComputeQueueCount),
        unmapComputeQueue w vqueueId = Result.ok () w'
        ∧ w'.driver.m_computeQueues ⟨vqueueId - VQueueIdBegin, hidx⟩ = none
        ∧ (∀ j : Fin MaxComputeQueueCount, j.val ≠ vqueueId - VQueueIdBegin →
            w'.driver.m_computeQueues j = w.driver.m_computeQueues j)
        ∧ w'.driver.m_graphicsQueue = w.driver.m_graphicsQueue
        ∧ w'.memory = w.memory) := by
  constructor
  · intro h
    unfold unmapComputeQueue
    rw [if_pos h]
    exact ⟨_, rfl, rfl, rfl, rfl⟩
  · intro h1 h2
    obtain ⟨hidx, hres⟩ := unmapComputeQueue_valid w vqueueId h1 h2
    refine ⟨_, hidx, hres, ?_, ?_, rfl, rfl⟩
    · simp [resetComputeQueue]
    · intro j hj
      have hne : j ≠ ⟨vqueueId - VQueueIdBegin, hidx⟩ := by
        intro hEq
        apply hj
        rw [hEq]
      simp [resetComputeQueue, Function.update_noteq hne]

/-- C5 at vqueueId 8 on a world where the slots 7 and 20 hold a queue. -/
theorem C5_unmapComputeQueue_frame_witness :
    ∃ (w' : GpuWorld) (hidx : 8 - VQueueIdBegin < MaxComputeQueueCount),
      unmapComputeQueue world1 8 = Result.ok () w'
      ∧ w'.driver.m_computeQueues ⟨8 - VQueueIdBegin, hidx⟩ = none
      ∧ (∀ j : Fin MaxComputeQueueCount, j.val ≠ 8 - VQueueIdBegin →
          w'.driver.m_computeQueues j = world1.driver.m_computeQueues j)
      ∧ w'.driver.m_graphicsQueue = world1.driver.m_graphicsQueue
      ∧ w'.memory = world1.memory :=
  (C5_unmapComputeQueue_frame world1 8).2 (by decide) (by decide)

/-! ## Submission of command buffers -/

/-- C6: `submitAndFlipCommandBuffers` with count 1 and display-buffer index `i`
returns `SCE_OK` after exactly these calls on the collaborators, in this order,
each once: track render target `i`, record the command buffer
(`dcbGpuAddrs[0]`, `dcbSizesInBytes[0]`) on the graphics queue, submit the
recorded command list, synchronize, present image `i`, reset the resource
tracker. `submitCommandBuffers` with count 1 does the same with index 0. -/
theorem C6_submit_effect_sequence (w : GpuWorld)
    (dcbGpuAddrs dcbSizesInBytes ccbGpuAddrs ccbSizesInBytes : Nat → Nat)
    (videoOutHandle i flipMode : Nat) (flipArg : Int) :
    (∃ w', submitAndFlipCommandBuffers w 1 dcbGpuAddrs dcbSizesInBytes ccbGpuAddrs
          ccbSizesInBytes videoOutHandle i flipMode flipArg = Result.ok SCE_OK w'
      ∧ w'.effects = w.effects ++
          [Effect.trackerTrack i,
           Effect.queueRecord { buffer := dcbGpuAddrs 0, size := dcbSizesInBytes 0 },
           Effect.queueSubmit
             { cmdList := { recordedFrom :=
                 { buffer := dcbGpuAddrs 0, size := dcbSizesInBytes 0 } },
               wait := VK_NULL_HANDLE, wake := VK_NULL_HANDLE },
           Effect.queueSynchronize,
           Effect.swapchainPresent i,
           Effect.trackerReset])
    ∧ (∃ w', submitCommandBuffers w 1 dcbGpuAddrs dcbSizesInBytes ccbGpuAddrs
          ccbSizesInBytes = Result.ok SCE_OK w'
      ∧ w'.effects = w.effects ++
          [Effect.trackerTrack 0,
           Effect.queueRecord { buffer := dcbGpuAddrs 0, size := dcbSizesInBytes 0 },
           Effect.queueSubmit
             { cmdList := { recordedFrom :=
                 { buffer := dcbGpuAddrs 0, size := dcbSizesInBytes 0 } },
               wait := VK_NULL_HANDLE, wake := VK_NULL_HANDLE },
           Effect.queueSynchronize,
           Effect.swapchainPresent 0,
           Effect.trackerReset]) := by
  constructor
  · refine ⟨_, rfl, ?_⟩
    simp [resetResourceTracker, submitPresent, queueRecord, trackRenderTarget,
      VK_NULL_HANDLE]
  · refine ⟨_, rfl, ?_⟩
    simp [resetResourceTracker, submitPresent, queueRecord, trackRenderTarget,
      VK_NULL_HANDLE]

/-- C7: `submitAndFlipCommandBuffers` and `submitCommandBuffers` with a count other
than 1 stop at the assertion, in the world they were called in: nothing is
tracked, recorded, submitted, waited for or presented, and the tracker is not
reset. -/
theorem C7_submit_count_assertion (w : GpuWorld) (count : Nat)
    (dcbGpuAddrs dcbSizesInBytes ccbGpuAddrs ccbSizesInBytes : Nat → Nat)
    (videoOutHandle displayBufferIndex flipMode : Nat) (flipArg : Int)
    (hcount : count ≠ 1) :
    (∃ w', submitAndFlipCommandBuffers w count dcbGpuAddrs dcbSizesInBytes
          ccbGpuAddrs ccbSizesInBytes videoOutHandle displayBufferIndex flipMode flipArg
          = Result.fault
              (Fault.assertion "Currently only support 1 cmdbuff at one call.") w'
        ∧ w' = w ∧ w'.effects = w.effects)
    ∧ (∃ w', submitCommandBuffers w count dcbGpuAddrs dcbSizesInBytes
          ccbGpuAddrs ccbSizesInBytes
          = Result.fault
              (Fault.assertion "Currently only support 1 cmdbuff at one call.") w'
        ∧ w' = w ∧ w'.effects = w.effects) := by
  have hb : (count == 1) = false := by simp [hcount]
  constructor
  · refine ⟨w, ?_, rfl, rfl⟩
    unfold submitAndFlipCommandBuffers LOG_ASSERT
    rw [hb]
    rfl
  · refine ⟨w, ?_, rfl, rfl⟩
    unfold submitCommandBuffers submitAndFlipCommandBuffers LOG_ASSERT
    rw [hb]
    rfl

/-- C7 at count 2. -/
theorem C7_submit_count_assertion_witness :
    (∃ w', submitAndFlipCommandBuffers world0 2 (fun _ => 0x4000)
          (fun _ => 64) (fun _ => 0) (fun _ => 0) 1 0 1 0
          = Result.fault
              (Fault.assertion "Currently only support 1 cmdbuff at one call.") w'
        ∧ w' = world0 ∧ w'.effects = world0.effects)
    ∧ (∃ w', submitCommandBuffers world0 2 (fun _ => 0x4000)
          (fun _ => 64) (fun _ => 0) (fun _ => 0)
          = Result.fault
              (Fault.assertion "Currently only support 1 cmdbuff at one call.") w'
        ∧ w' = world0 ∧ w'.effects = world0.effects) :=
  C7_submit_count_assertion world0 2 (fun _ => 0x4000) (fun _ => 64) (fun _ => 0)
    (fun _ => 0) 1 0 1 0 (by decide)

/-! ## The GPU event and its pool -/

/-- `allocEvent` on an empty freelist. -/
theorem allocEvent_empty (p : VltGpuEventPool) (h : Host) (hempty : p.m_events = []) :
    p.allocEvent h =
      if (vkCreateEvent h p.m_device).1.1 ≠ VK_SUCCESS then
        ({}, p,
          { (vkCreateEvent h p.m_device).2 with
            calls := (vkCreateEvent h p.m_device).2.calls ++
              [HostCall.loggerErr "DXVK: Failed to create GPU event"] })
      else
        ({ pool := p.self, event := (vkCreateEvent h p.m_device).1.2 }, p,
          (vkCreateEvent h p.m_device).2) := by
  unfold VltGpuEventPool.allocEvent
  simp [hempty]

/-- `allocEvent` on a freelist whose back entry is not null. -/
theorem allocEvent_pop (p : VltGpuEventPool) (h : Host) (hne : p.m_events ≠ [])
    (hback : p.m_events.getLast hne ≠ VK_NULL_HANDLE) :
    p.allocEvent h =
      ({ pool := p.self, event := p.m_events.getLast hne },
        { p with m_events := p.m_events.dropLast }, h) := by
  have hlen : 0 < p.m_events.length := List.length_pos.mpr hne
  unfold VltGpuEventPool.allocEvent
  simp [hlen, hback]

/-- C8: from an empty freelist, on a host whose next `vkCreateEvent` succeeds:
`allocEvent` makes one creation call and returns a non-null event; after
`freeEvent` of that event, `allocEvent` returns the same handle and makes no
host call at all (no second creation); an event built on that handle tests
`UnSignaled`. -/
theorem C8_event_pool_round_trip (p : VltGpuEventPool) (h : Host)
    (hempty : p.m_events = [])
    (hcreate : h.createResult h.createCount = VK_SUCCESS) :
    (p.allocEvent h).1.event ≠ VK_NULL_HANDLE
    ∧ (p.allocEvent h).1.pool = p.self
    ∧ (p.allocEvent h).2.2.calls = h.calls ++ [HostCall.vkCreateEvent p.m_device]
    ∧ (((p.allocEvent h).2.1.freeEvent (p.allocEvent h).1.event).allocEvent
          (p.allocEvent h).2.2).1 = (p.allocEvent h).1
    ∧ (((p.allocEvent h).2.1.freeEvent (p.allocEvent h).1.event).allocEvent
          (p.allocEvent h).2.2).2.2.calls
        = h.calls ++ [HostCall.vkCreateEvent p.m_device]
    ∧ (((p.allocEvent h).2.1.freeEvent (p.allocEvent h).1.event).allocEvent
          (p.allocEvent h).2.2).2.2.createCount = h.createCount + 1
    ∧ (VltGpuEvent.test
          { m_device := p.m_device,
            m_handle := (((p.allocEvent h).2.1.freeEvent
              (p.allocEvent h).1.event).allocEvent (p.allocEvent h).2.2).1 }
          (((p.allocEvent h).2.1.freeEvent (p.allocEvent h).1.event).allocEvent
            (p.allocEvent h).2.2).2.2).1 = VltGpuEventStatus.UnSignaled := by
  have hfirst : p.allocEvent h =
      ({ pool := p.self, event := h.createCount + 1 }, p,
        { h with
          createCount := h.createCount + 1
          calls := h.calls ++ [HostCall.vkCreateEvent p.m_device]
          eventStatus := Function.update h.eventStatus (h.createCount + 1)
            VK_EVENT_RESET }) := by
    rw [allocEvent_empty p h hempty]
    simp [vkCreateEvent, hcreate]
  have hsecond : (p.freeEvent (h.createCount + 1)).allocEvent
      { h with
        createCount := h.createCount + 1
        calls := h.calls ++ [HostCall.vkCreateEvent p.m_device]
        eventStatus := Function.update h.eventStatus (h.createCount + 1)
          VK_EVENT_RESET } =
      ({ pool := p.self, event := h.createCount + 1 }, p,
        { h with
          createCount := h.createCount + 1
          calls := h.calls ++ [HostCall.vkCreateEvent p.m_device]
          eventStatus := Function.update h.eventStatus (h.createCount + 1)
            VK_EVENT_RESET }) := by
    rw [allocEvent_pop _ _ (by simp [VltGpuEventPool.freeEvent])
      (by simp [VltGpuEventPool.freeEvent, VK_NULL_HANDLE])]
    simp [VltGpuEventPool.freeEvent]
  rw [hfirst]
  dsimp only
  rw [hsecond]
  dsimp only
  refine ⟨by simp [VK_NULL_HANDLE], rfl, rfl, rfl, rfl, rfl, ?_⟩
  simp [VltGpuEvent.test, vkGetEventStatus, VK_NULL_HANDLE, VK_EVENT_RESET, VK_EVENT_SET]

/-- C8 on the empty pool `pool0` and the host `host0`. -/
theorem C8_event_pool_round_trip_witness :
    (pool0.allocEvent host0).1.event ≠ VK_NULL_HANDLE
    ∧ (pool0.allocEvent host0).1.pool = pool0.self
    ∧ (pool0.allocEvent host0).2.2.calls
        = host0.calls ++ [HostCall.vkCreateEvent pool0.m_device]
    ∧ (((pool0.allocEvent host0).2.1.freeEvent (pool0.allocEvent host0).1.event).allocEvent
          (pool0.allocEvent host0).2.2).1 = (pool0.allocEvent host0).1
    ∧ (((pool0.allocEvent host0).2.1.freeEvent (pool0.allocEvent host0).1.event).allocEvent
          (pool0.allocEvent host0).2.2).2.2.calls
        = host0.calls ++ [HostCall.vkCreateEvent pool0.m_device]
    ∧ (((pool0.allocEvent host0).2.1.freeEvent (pool0.allocEvent host0).1.event).allocEvent
          (pool0.allocEvent host0).2.2).2.2.createCount = host0.createCount + 1
    ∧ (VltGpuEvent.test
          { m_device := pool0.m_device,
            m_handle := (((pool0.allocEvent host0).2.1.freeEvent
              (pool0.allocEvent host0).1.event).allocEvent (pool0.allocEvent host0).2.2).1 }
          (((pool0.allocEvent host0).2.1.freeEvent
            (pool0.allocEvent host0).1.event).allocEvent
            (pool0.allocEvent host0).2.2).2.2).1 = VltGpuEventStatus.UnSignaled :=
  C8_event_pool_round_trip pool0 host0 rfl rfl

/-- C9: `VltGpuEvent::test` on a null event returns `Invalid` and makes no host
call. On a non-null event it makes the one call `vkGetEventStatus` and returns
`Signaled` exactly when the host reports `VK_EVENT_SET`, `UnSignaled` exactly
when it reports `VK_EVENT_RESET`, and `Invalid` exactly when it reports
anything else. -/
theorem C9_test_tri_state (e : VltGpuEvent) (h : Host) :
    (e.m_handle.event = VK_NULL_HANDLE →
      e.test h = (VltGpuEventStatus.Invalid, h))
    ∧ (e.m_handle.event ≠ VK_NULL_HANDLE →
      ((e.test h).1 = VltGpuEventStatus.Signaled ↔
        (vkGetEventStatus h e.m_device e.m_handle.event).1 = VK_EVENT_SET)
      ∧ ((e.test h).1 = VltGpuEventStatus.UnSignaled ↔
        (vkGetEventStatus h e.m_device e.m_handle.event).1 = VK_EVENT_RESET)
      ∧ ((e.test h).1 = VltGpuEventStatus.Invalid ↔
        ((vkGetEventStatus h e.m_device e.m_handle.event).1 ≠ VK_EVENT_SET
          ∧ (vkGetEventStatus h e.m_device e.m_handle.event).1 ≠ VK_EVENT_RESET))
      ∧ (e.test h).2.calls
          = h.calls ++ [HostCall.vkGetEventStatus e.m_device e.m_handle.event]
      ∧ (e.test h).2.eventStatus = h.eventStatus) := by
  constructor
  · intro hnull
    unfold VltGpuEvent.test
    rw [if_pos hnull]
  · intro hnn
    unfold VltGpuEvent.test
    rw [if_neg hnn]
    simp only [vkGetEventStatus]
    have hsr : VK_EVENT_SET ≠ VK_EVENT_RESET := by decide
    have hrs : VK_EVENT_RESET ≠ VK_EVENT_SET := by decide
    by_cases hset : h.eventStatus e.m_handle.event = VK_EVENT_SET
    · simp [hset, hsr]
    · by_cases hreset : h.eventStatus e.m_handle.event = VK_EVENT_RESET
      · simp [hreset, hrs]
      · simp [hset, hreset]

/-- C9 on an event that the host reports as set. -/
theorem C9_test_tri_state_witness :
    ((VltGpuEvent.test { m_device := 1, m_handle := { pool := 0x7000, event := 5 } }
        (vkSetEvent host0 1 5)).1 = VltGpuEventStatus.Signaled ↔
      (vkGetEventStatus (vkSetEvent host0 1 5) 1 5).1 = VK_EVENT_SET)
    ∧ ((VltGpuEvent.test { m_device := 1, m_handle := { pool := 0x7000, event := 5 } }
        (vkSetEvent host0 1 5)).1 = VltGpuEventStatus.UnSignaled ↔
      (vkGetEventStatus (vkSetEvent host0 1 5) 1 5).1 = VK_EVENT_RESET)
    ∧ ((VltGpuEvent.test { m_device := 1, m_handle := { pool := 0x7000, event := 5 } }
        (vkSetEvent host0 1 5)).1 = VltGpuEventStatus.Invalid ↔
      ((vkGetEventStatus (vkSetEvent host0 1 5) 1 5).1 ≠ VK_EVENT_SET
        ∧ (vkGetEventStatus (vkSetEvent host0 1 5) 1 5).1 ≠ VK_EVENT_RESET))
    ∧ (VltGpuEvent.test { m_device := 1, m_handle := { pool := 0x7000, event := 5 } }
        (vkSetEvent host0 1 5)).2.calls
        = (vkSetEvent host0 1 5).calls ++ [HostCall.vkGetEventStatus 1 5]
    ∧ (VltGpuEvent.test { m_device := 1, m_handle := { pool := 0x7000, event := 5 } }
        (vkSetEvent host0 1 5)).2.eventStatus = (vkSetEvent host0 1 5).eventStatus :=
  (C9_test_tri_state { m_device := 1, m_handle := { pool := 0x7000, event := 5 } }
    (vkSetEvent host0 1 5)).2 (by decide)

/-- The freelist after `allocEvent`, in every state: the back entry is removed
when there is one. -/
theorem allocEvent_freelist (p : VltGpuEventPool) (h : Host) :
    (p.allocEvent h).2.1.m_events = p.m_events.dropLast := by
  by_cases hne : p.m_events = []
  · rw [allocEvent_empty p h hne]
    by_cases hc : h.createResult h.createCount = VK_SUCCESS
    · simp [vkCreateEvent, hc, hne]
    · simp [vkCreateEvent, hc, hne]
  · have hlen : 0 < p.m_events.length := List.length_pos.mpr hne
    by_cases hback : p.m_events.getLast hne = VK_NULL_HANDLE
    · by_cases hc : h.createResult h.createCount = VK_SUCCESS
      · simp [VltGpuEventPool.allocEvent, hlen, hback, vkCreateEvent, hc]
      · simp [VltGpuEventPool.allocEvent, hlen, hback, vkCreateEvent, hc]
    · rw [allocEvent_pop p h hne hback]

/-- C10: on every pool state with a non-empty freelist (the freelist of a pool
holds no null handle), `allocEvent` returns the event at the back of the
freelist, removes exactly that one entry and makes no host call. On an empty
freelist it makes exactly one host creation call (followed only by the error
log when the creation fails) and leaves the freelist empty. In every state the
freelist after `allocEvent` is the one before without its back entry.
`freeEvent` appends the event to the freelist, changes nothing else of the
pool and makes no host call. The freelist of a new pool is empty, and
`allocEvent` and `~VltGpuEvent`, the one caller of `freeEvent`, keep it free of
null handles. -/
theorem C10_allocEvent_freeEvent (p : VltGpuEventPool) (h : Host) :
    (∀ hne : p.m_events ≠ [], p.nullFree →
      p.allocEvent h =
        ({ pool := p.self, event := p.m_events.getLast hne },
          { p with m_events := p.m_events.dropLast }, h)
      ∧ p.m_events = p.m_events.dropLast ++ [p.m_events.getLast hne])
    ∧ (p.allocEvent h).2.1.m_events = p.m_events.dropLast
    ∧ (p.m_events = [] →
      (p.allocEvent h).2.1.m_events = []
      ∧ (p.allocEvent h).2.2.createCount = h.createCount + 1
      ∧ ((p.allocEvent h).2.2.calls = h.calls ++ [HostCall.vkCreateEvent p.m_device]
        ∨ (p.allocEvent h).2.2.calls = h.calls ++
            [HostCall.vkCreateEvent p.m_device,
             HostCall.loggerErr "DXVK: Failed to create GPU event"]))
    ∧ (∀ event : Nat,
      (p.freeEvent event).m_events = p.m_events ++ [event]
      ∧ (p.freeEvent event).self = p.self
      ∧ (p.freeEvent event).m_device = p.m_device)
    ∧ (∀ self device : Nat,
      VltGpuEventPool.nullFree { self := self, m_device := device, m_events := [] })
    ∧ (p.nullFree → (p.allocEvent h).2.1.nullFree)
    ∧ (∀ e : VltGpuEvent, p.nullFree → (e.destructor p).nullFree) := by
  refine ⟨?_, allocEvent_freelist p h, ?_, ?_, ?_, ?_, ?_⟩
  · intro hne hfree
    have hback : p.m_events.getLast hne ≠ VK_NULL_HANDLE :=
      hfree _ (List.getLast_mem hne)
    exact ⟨allocEvent_pop p h hne hback, (List.dropLast_append_getLast hne).symm⟩
  · intro hempty
    rw [allocEvent_empty p h hempty]
    by_cases hc : h.createResult h.createCount = VK_SUCCESS
    · simp [vkCreateEvent, hc, hempty]
    · simp [vkCreateEvent, hc, hempty]
  · intro event
    exact ⟨rfl, rfl, rfl⟩
  · intro self device e he
    simp at he
  · intro hfree e he
    rw [allocEvent_freelist p h] at he
    exact hfree e (List.mem_of_mem_dropLast he)
  · intro e hfree x hx
    unfold VltGpuEvent.destructor at hx
    by_cases hg : e.m_handle.pool ≠ 0 ∧ e.m_handle.event ≠ VK_NULL_HANDLE
    · rw [if_pos hg] at hx
      simp only [VltGpuEventPool.freeEvent, List.mem_append, List.mem_singleton] at hx
      rcases hx with hx | hx
      · exact hfree x hx
      · rw [hx]
        exact hg.2
    · rw [if_neg hg] at hx
      exact hfree x hx

/-- C10 on the freelist `[3, 5]`: event 5 is returned, 3 stays. -/
theorem C10_allocEvent_freeEvent_witness :
    poolTwo.allocEvent host0 =
        ({ pool := poolTwo.self, event := poolTwo.m_events.getLast (by decide) },
          { poolTwo with m_events := poolTwo.m_events.dropLast }, host0)
      ∧ poolTwo.m_events
          = poolTwo.m_events.dropLast ++ [poolTwo.m_events.getLast (by decide)] :=
  (C10_allocEvent_freeEvent poolTwo host0).1 (by decide)
    (by unfold VltGpuEventPool.nullFree; decide)

/-- `allocEvent` on an empty freelist when the host creation fails. -/
theorem allocEvent_empty_failure (p : VltGpuEventPool) (h : Host)
    (hempty : p.m_events = [])
    (hfail : h.createResult h.createCount ≠ VK_SUCCESS) :
    p.allocEvent h =
      ({ pool := 0, event := VK_NULL_HANDLE }, p,
        { h with
          createCount := h.createCount + 1
          calls := h.calls ++
            [HostCall.vkCreateEvent p.m_device,
             HostCall.loggerErr "DXVK: Failed to create GPU event"] }) := by
  rw [allocEvent_empty p h hempty]
  simp [vkCreateEvent, hfail]

/-- C11: with an empty freelist and a host creation that fails, `allocEvent`
returns the null handle (null pool, null event) after exactly one creation
attempt, followed only by the error log, and leaves the pool, its freelist
included, unchanged. An event built on that handle tests `Invalid` without a
host call, and its destructor leaves every pool as it is. -/
theorem C11_allocEvent_creation_failure (p : VltGpuEventPool) (h : Host) (device : Nat)
    (hempty : p.m_events = [])
    (hfail : h.createResult h.createCount ≠ VK_SUCCESS) :
    (p.allocEvent h).1 = { pool := 0, event := VK_NULL_HANDLE }
    ∧ (p.allocEvent h).2.1 = p
    ∧ (p.allocEvent h).2.1.m_events = []
    ∧ (p.allocEvent h).2.2.createCount = h.createCount + 1
    ∧ (p.allocEvent h).2.2.calls = h.calls ++
        [HostCall.vkCreateEvent p.m_device,
         HostCall.loggerErr "DXVK: Failed to create GPU event"]
    ∧ VltGpuEvent.test { m_device := device, m_handle := (p.allocEvent h).1 }
          (p.allocEvent h).2.2
        = (VltGpuEventStatus.Invalid, (p.allocEvent h).2.2)
    ∧ ∀ q : VltGpuEventPool,
        VltGpuEvent.destructor { m_device := device, m_handle := (p.allocEvent h).1 } q
          = q := by
  rw [allocEvent_empty_failure p h hempty hfail]
  refine ⟨rfl, rfl, hempty, rfl, rfl, ?_, ?_⟩
  · simp [VltGpuEvent.test]
  · intro q
    simp [VltGpuEvent.destructor]

/-- C11 on the empty pool `pool0` and the host `hostFail`. -/
theorem C11_allocEvent_creation_failure_witness :
    (pool0.allocEvent hostFail).1 = { pool := 0, event := VK_NULL_HANDLE }
    ∧ (pool0.allocEvent hostFail).2.1 = pool0
    ∧ (pool0.allocEvent hostFail).2.1.m_events = []
    ∧ (pool0.allocEvent hostFail).2.2.createCount = hostFail.createCount + 1
    ∧ (pool0.allocEvent hostFail).2.2.calls = hostFail.calls ++
        [HostCall.vkCreateEvent pool0.m_device,
         HostCall.loggerErr "DXVK: Failed to create GPU event"]
    ∧ VltGpuEvent.test { m_device := 1, m_handle := (pool0.allocEvent hostFail).1 }
          (pool0.allocEvent hostFail).2.2
        = (VltGpuEventStatus.Invalid, (pool0.allocEvent hostFail).2.2)
    ∧ ∀ q : VltGpuEventPool,
        VltGpuEvent.destructor
          { m_device := 1, m_handle := (pool0.allocEvent hostFail).1 } q = q :=
  C11_allocEvent_creation_failure pool0 hostFail 1 rfl (by decide)

/-! ## The resource object -/

/-- C12: a resource constructed from a `SceBuffer` has exactly the Buffer flag in
`type()`; after `setTexture` its `type()` holds exactly Buffer and Texture, the
texture view is the given one, and `size()`, `gpuMemory()` and `cpuMemory()`
return what they returned before the call. -/
theorem C12_setTexture_frame (buffer : SceBuffer) (texture : SceTexture) :
    (∀ t : SceResourceType,
      (SceResource.fromBuffer buffer).type.test t = true ↔ t = SceResourceType.Buffer)
    ∧ (∀ t : SceResourceType,
      ((SceResource.fromBuffer buffer).setTexture texture).type.test t = true ↔
        (t = SceResourceType.Buffer ∨ t = SceResourceType.Texture))
    ∧ ((SceResource.fromBuffer buffer).setTexture texture).texture = texture
    ∧ ((SceResource.fromBuffer buffer).setTexture texture).buffer = buffer
    ∧ ((SceResource.fromBuffer buffer).setTexture texture).size
        = (SceResource.fromBuffer buffer).size
    ∧ ((SceResource.fromBuffer buffer).setTexture texture).gpuMemory
        = (SceResource.fromBuffer buffer).gpuMemory
    ∧ ((SceResource.fromBuffer buffer).setTexture texture).cpuMemory
        = (SceResource.fromBuffer buffer).cpuMemory := by
  have h1 : (SceResource.fromBuffer buffer).type = { raw := 1 } := by
    simp only [SceResource.type, SceResource.fromBuffer, SceResourceTypeFlags.set]
    decide
  have h2 : ((SceResource.fromBuffer buffer).setTexture texture).type = { raw := 3 } := by
    simp only [SceResource.type, SceResource.fromBuffer, SceResource.setTexture,
      SceResourceTypeFlags.set]
    decide
  refine ⟨?_, ?_, rfl, rfl, rfl, rfl, rfl⟩
  · intro t
    rw [h1]
    cases t <;> decide
  · intro t
    rw [h2]
    cases t <;> decide

/-! ## The virtual queue id and the compute-queue table -/

/-- C13: `unmapComputeQueue(0)` is not ignored. The id 0 passes the only guard
(`0 >= MaxComputeQueueCount` is false), the index `0 - VQueueIdBegin` wraps to
`2 ^ 32 - 1` in `uint32_t`, and the table is indexed there, past its 56
slots. -/
theorem C13_unmapComputeQueue_zero_out_of_range (w : GpuWorld) :
    ¬ (MaxComputeQueueCount ≤ 0)
    ∧ u32 (0 + 2 ^ 32 - VQueueIdBegin) = 4294967295
    ∧ ¬ (4294967295 < MaxComputeQueueCount)
    ∧ unmapComputeQueue w 0 = Result.fault (Fault.indexOutOfRange 4294967295) w := by
  refine ⟨by decide, by decide, by decide, ?_⟩
  unfold unmapComputeQueue
  rw [if_neg (by decide)]
  have hix : u32 (0 + 2 ^ 32 - VQueueIdBegin) = 4294967295 := by decide
  simp only [hix]
  rw [dif_neg (by decide)]

/-- C14: for pipeId < MaxPipeId and queueId < MaxQueueId the sum
`VQueueIdBegin + pipeId * MaxPipeId + queueId` does not overflow 32 bits, the
`int` that holds it reads back as the same number, `1 <= id <
MaxComputeQueueCount`, and the index `id - VQueueIdBegin` is inside the table
of `MaxPipeId * MaxQueueId` slots. `mapComputeQueue` then either rejects the
call in the world it was called in, or stores the new queue in that slot: it
never returns through the capacity branch. -/
theorem C14_vqueueId_within_table (w : GpuWorld)
    (pipeId queueId ringBaseAddr ringSizeInDW readPtrAddr : Nat)
    (hpipe : pipeId < MaxPipeId) (hqueue : queueId < MaxQueueId) :
    VQueueIdBegin + pipeId * MaxPipeId + queueId < 2 ^ 31
    ∧ u32 (VQueueIdBegin + pipeId * MaxPipeId + queueId)
        = VQueueIdBegin + pipeId * MaxPipeId + queueId
    ∧ toUInt32 (toInt32 (u32 (VQueueIdBegin + pipeId * MaxPipeId + queueId)))
        = VQueueIdBegin + pipeId * MaxPipeId + queueId
    ∧ 1 ≤ VQueueIdBegin + pipeId * MaxPipeId + queueId
    ∧ VQueueIdBegin + pipeId * MaxPipeId + queueId < MaxComputeQueueCount
    ∧ u32 (VQueueIdBegin + pipeId * MaxPipeId + queueId + 2 ^ 32 - VQueueIdBegin)
        = VQueueIdBegin + pipeId * MaxPipeId + queueId - VQueueIdBegin
    ∧ VQueueIdBegin + pipeId * MaxPipeId + queueId - VQueueIdBegin
        < MaxPipeId * MaxQueueId
    ∧ ((∃ ret, mapComputeQueue w pipeId queueId ringBaseAddr ringSizeInDW readPtrAddr
          = Result.ok ret w)
      ∨ (∃ hidx : VQueueIdBegin + pipeId * MaxPipeId + queueId - VQueueIdBegin
            < MaxComputeQueueCount,
          mapComputeQueue w pipeId queueId ringBaseAddr ringSizeInDW readPtrAddr
            = Result.ok (VQueueIdBegin + pipeId * MaxPipeId + queueId)
                (assignComputeQueue { w with memory := writeU32 w.memory readPtrAddr 0 }
                  ⟨VQueueIdBegin + pipeId * MaxPipeId + queueId - VQueueIdBegin, hidx⟩
                  { device := w.driver.m_device, type := SceQueueType.Compute }))) := by
  have hlt : VQueueIdBegin + pipeId * MaxPipeId + queueId < MaxComputeQueueCount := by
    simp only [VQueueIdBegin, MaxComputeQueueCount, MaxPipeId, MaxQueueId] at *
    omega
  have hge : VQueueIdBegin ≤ VQueueIdBegin + pipeId * MaxPipeId + queueId := by omega
  have hsmall : VQueueIdBegin + pipeId * MaxPipeId + queueId < 2 ^ 31 := by
    simp only [VQueueIdBegin, MaxComputeQueueCount, MaxPipeId, MaxQueueId] at *
    omega
  refine ⟨hsmall, ?_, vqueueId_roundtrip pipeId queueId hpipe hqueue, ?_, hlt,
    vqueueIndex_eq _ hge hlt, ?_, ?_⟩
  · unfold u32
    omega
  · simp only [VQueueIdBegin] at *
    omega
  · simp only [VQueueIdBegin, MaxComputeQueueCount, MaxPipeId, MaxQueueId] at *
    omega
  · obtain ⟨_, _, e3, e4, e5⟩ :=
      mapComputeQueue_invalid w pipeId queueId ringBaseAddr ringSizeInDW readPtrAddr
    by_cases h3 : ringBaseAddr % 256 ≠ 0
    · exact Or.inl ⟨_, e3 hpipe hqueue h3⟩
    cases h4 : isPowerOfTwo ringSizeInDW
    · exact Or.inl ⟨_, e4 hpipe hqueue (by omega) h4⟩
    by_cases h5 : readPtrAddr % 4 ≠ 0
    · exact Or.inl ⟨_, e5 hpipe hqueue (by omega) h4 h5⟩
    exact Or.inr (mapComputeQueue_valid w pipeId queueId ringBaseAddr ringSizeInDW
      readPtrAddr hpipe hqueue (by omega) h4 (by omega))

/-- C14 at pipe 6 and queue 7, the largest id (50). -/
theorem C14_vqueueId_within_table_witness :
    VQueueIdBegin + 6 * MaxPipeId + 7 < 2 ^ 31
    ∧ u32 (VQueueIdBegin + 6 * MaxPipeId + 7) = VQueueIdBegin + 6 * MaxPipeId + 7
    ∧ toUInt32 (toInt32 (u32 (VQueueIdBegin + 6 * MaxPipeId + 7)))
        = VQueueIdBegin + 6 * MaxPipeId + 7
    ∧ 1 ≤ VQueueIdBegin + 6 * MaxPipeId + 7
    ∧ VQueueIdBegin + 6 * MaxPipeId + 7 < MaxComputeQueueCount
    ∧ u32 (VQueueIdBegin + 6 * MaxPipeId + 7 + 2 ^ 32 - VQueueIdBegin)
        = VQueueIdBegin + 6 * MaxPipeId + 7 - VQueueIdBegin
    ∧ VQueueIdBegin + 6 * MaxPipeId + 7 - VQueueIdBegin < MaxPipeId * MaxQueueId
    ∧ ((∃ ret, mapComputeQueue world0 6 7 0x100 128 0x10 = Result.ok ret world0)
      ∨ (∃ hidx : VQueueIdBegin + 6 * MaxPipeId + 7 - VQueueIdBegin
            < MaxComputeQueueCount,
          mapComputeQueue world0 6 7 0x100 128 0x10
            = Result.ok (VQueueIdBegin + 6 * MaxPipeId + 7)
                (assignComputeQueue
                  { world0 with memory := writeU32 world0.memory 0x10 0 }
                  ⟨VQueueIdBegin + 6 * MaxPipeId + 7 - VQueueIdBegin, hidx⟩
                  { device := world0.driver.m_device, type := SceQueueType.Compute }))) :=
  C14_vqueueId_within_table world0 6 7 0x100 128 0x10 (by decide) (by decide)

/-- C15: the ids are not injective on the valid pairs. The distinct pairs
(pipe 0, queue 7) and (pipe 1, queue 0) are both mapped to the id 8; mapping
the second after the first stores its queue in the slot 7 that held the queue
of the first, which is destroyed. -/
theorem C15_vqueueId_collision :
    (0 < MaxPipeId ∧ 7 < MaxQueueId) ∧ (1 < MaxPipeId ∧ 0 < MaxQueueId)
    ∧ VQueueIdBegin + 0 * MaxPipeId + 7 = VQueueIdBegin + 1 * MaxPipeId + 0
    ∧ ∃ (w1 w2 : GpuWorld) (hidx : 7 < MaxComputeQueueCount),
        mapComputeQueue world0 0 7 0x100 128 0x10 = Result.ok 8 w1
        ∧ w1.driver.m_computeQueues ⟨7, hidx⟩
            = some { device := 1, type := SceQueueType.Compute }
        ∧ w1.effects
            = [Effect.queueCreated { device := 1, type := SceQueueType.Compute }]
        ∧ mapComputeQueue w1 1 0 0x200 128 0x20 = Result.ok 8 w2
        ∧ w2.effects
            = [Effect.queueCreated { device := 1, type := SceQueueType.Compute },
               Effect.queueCreated { device := 1, type := SceQueueType.Compute },
               Effect.queueDestroyed { device := 1, type := SceQueueType.Compute }] := by
  refine ⟨by decide, by decide, by decide, ?_⟩
  obtain ⟨hidx1, hmap1⟩ := mapComputeQueue_valid world0 0 7 0x100 128 0x10
    (by decide) (by decide) (by decide) (by decide) (by decide)
  obtain ⟨hidx2, hmap2⟩ := mapComputeQueue_valid
    (assignComputeQueue { world0 with memory := writeU32 world0.memory 0x10 0 }
      ⟨VQueueIdBegin + 0 * MaxPipeId + 7 - VQueueIdBegin, hidx1⟩
      { device := world0.driver.m_device, type := SceQueueType.Compute })
    1 0 0x200 128 0x20
    (by decide) (by decide) (by decide) (by decide) (by decide)
  refine ⟨_, _, by decide, hmap1, ?_, ?_, hmap2, ?_⟩
  · simp [assignComputeQueue, world0, VQueueIdBegin, MaxPipeId]
  · simp [assignComputeQueue, world0]
  · simp [assignComputeQueue, world0, VQueueIdBegin, MaxPipeId]

/-! ## The event pool and the signal state -/

/-- C16: the pool makes no set or reset call. `freeEvent` makes no host call at
all; every host call that `allocEvent` adds is a `vkCreateEvent` or the error
log. For an event that tests `Signaled` (or `UnSignaled`) when it is freed, the
next `allocEvent` returns the same handle with the host unchanged, and an
event built on that handle tests `Signaled` (or `UnSignaled`) again. -/
theorem C16_pool_keeps_signal_state (p : VltGpuEventPool) (h : Host)
    (device event : Nat) (status : VltGpuEventStatus)
    (hstatus : status = VltGpuEventStatus.Signaled
      ∨ status = VltGpuEventStatus.UnSignaled)
    (htest : (VltGpuEvent.test
      { m_device := device, m_handle := { pool := p.self, event := event } } h).1
        = status) :
    (∃ extra, (p.allocEvent h).2.2.calls = h.calls ++ extra
      ∧ ∀ c ∈ extra, c = HostCall.vkCreateEvent p.m_device
          ∨ c = HostCall.loggerErr "DXVK: Failed to create GPU event")
    ∧ ((p.freeEvent event).allocEvent h).1 = { pool := p.self, event := event }
    ∧ ((p.freeEvent event).allocEvent h).2.1 = p
    ∧ ((p.freeEvent event).allocEvent h).2.2 = h
    ∧ (VltGpuEvent.test
        { m_device := device, m_handle := ((p.freeEvent event).allocEvent h).1 }
        ((p.freeEvent event).allocEvent h).2.2).1 = status := by
  have hnn : event ≠ VK_NULL_HANDLE := by
    intro hnull
    subst hnull
    have hinv : (VltGpuEvent.test
        { m_device := device, m_handle := { pool := p.self, event := VK_NULL_HANDLE } }
        h).1 = VltGpuEventStatus.Invalid := by
      simp [VltGpuEvent.test]
    rw [hinv] at htest
    rcases hstatus with hs | hs
    · rw [hs] at htest
      exact VltGpuEventStatus.noConfusion htest
    · rw [hs] at htest
      exact VltGpuEventStatus.noConfusion htest
  have hrecycle : (p.freeEvent event).allocEvent h =
      ({ pool := p.self, event := event }, p, h) := by
    rw [allocEvent_pop _ _ (by simp [VltGpuEventPool.freeEvent])
      (by simpa [VltGpuEventPool.freeEvent] using hnn)]
    simp [VltGpuEventPool.freeEvent]
  refine ⟨?_, ?_⟩
  · by_cases hne : p.m_events = []
    · rw [allocEvent_empty p h hne]
      by_cases hc : h.createResult h.createCount = VK_SUCCESS
      · exact ⟨[HostCall.vkCreateEvent p.m_device], by simp [vkCreateEvent, hc],
          by simp⟩
      · exact ⟨[HostCall.vkCreateEvent p.m_device,
            HostCall.loggerErr "DXVK: Failed to create GPU event"],
          by simp [vkCreateEvent, hc], by simp⟩
    · by_cases hback : p.m_events.getLast hne = VK_NULL_HANDLE
      · have hlen : 0 < p.m_events.length := List.length_pos.mpr hne
        by_cases hc : h.createResult h.createCount = VK_SUCCESS
        · exact ⟨[HostCall.vkCreateEvent p.m_device],
            by simp [VltGpuEventPool.allocEvent, hlen, hback, vkCreateEvent, hc],
            by simp⟩
        · exact ⟨[HostCall.vkCreateEvent p.m_device,
              HostCall.loggerErr "DXVK: Failed to create GPU event"],
            by simp [VltGpuEventPool.allocEvent, hlen, hback, vkCreateEvent, hc],
            by simp⟩
      · rw [allocEvent_pop p h hne hback]
        exact ⟨[], by simp, by simp⟩
  · rw [hrecycle]
    exact ⟨rfl, rfl, rfl, htest⟩

/-- C16 on an event that the host reports as set. -/
theorem C16_pool_keeps_signal_state_witness :
    (∃ extra, (pool0.allocEvent (vkSetEvent host0 1 5)).2.2.calls
        = (vkSetEvent host0 1 5).calls ++ extra
      ∧ ∀ c ∈ extra, c = HostCall.vkCreateEvent pool0.m_device
          ∨ c = HostCall.loggerErr "DXVK: Failed to create GPU event")
    ∧ ((pool0.freeEvent 5).allocEvent (vkSetEvent host0 1 5)).1
        = { pool := pool0.self, event := 5 }
    ∧ ((pool0.freeEvent 5).allocEvent (vkSetEvent host0 1 5)).2.1 = pool0
    ∧ ((pool0.freeEvent 5).allocEvent (vkSetEvent host0 1 5)).2.2 = vkSetEvent host0 1 5
    ∧ (VltGpuEvent.test
        { m_device := 1,
          m_handle := ((pool0.freeEvent 5).allocEvent (vkSetEvent host0 1 5)).1 }
        ((pool0.freeEvent 5).allocEvent (vkSetEvent host0 1 5)).2.2).1
        = VltGpuEventStatus.Signaled :=
  C16_pool_keeps_signal_state pool0 (vkSetEvent host0 1 5) 1 5
    VltGpuEventStatus.Signaled (Or.inl rfl) (by decide)

end sce
